import Mathlib

/-!
Shallow embedding of the tactical analytics engine of the racepilot-dashboard
repository: the functions of src/tacticalUtils.ts together with the
kilometre haversine variant of the session-utilities module.

Number model.  JavaScript number arithmetic is modelled exactly: sampled
fields, thresholds and timestamps are rationals, and real numbers are used
where trigonometry enters.  The one place where IEEE special values decide a
claim — the efficiency quotient inside detectTacks — is modelled by the
JSNum type, which carries NaN and the infinities through division,
multiplication, Math.min and Math.max the way JavaScript does.  The ts field
holds the epoch milliseconds that new Date(ts).getTime() returns for the
sample's timestamp string.  The JavaScript remainder operator (sign of the
dividend, truncated division) is jsRem; JavaScript Math.atan2 on the inputs
arising here is atan2.
-/

namespace RacePilot

/-- One GPS/wind fix, the TrackPoint interface of src/types.ts.  Optional
fields (tws, twa) are Options; the remaining numeric fields are required
numbers in the source. -/
structure TrackPoint where
  ts : ℚ
  lat : ℚ
  lon : ℚ
  sog : ℚ
  cog : ℚ
  awa : ℚ
  aws : ℚ
  hdg : ℚ
  tws : Option ℚ
  twa : Option ℚ

/-- JavaScript number values reachable by the efficiency computation:
a finite value, NaN, or a signed infinity. -/
inductive JSNum where
  | num : ℝ → JSNum
  | nan : JSNum
  | posinf : JSNum
  | neginf : JSNum

/-- JavaScript division a / b of two finite numbers: a finite quotient when
b is nonzero; for b = 0 (the positive zero, the only zero of the real
model) the result is NaN when a = 0 and a signed infinity otherwise. -/
noncomputable def jsDiv (a b : ℝ) : JSNum :=
  if b = 0 then
    if a = 0 then JSNum.nan else if 0 < a then JSNum.posinf else JSNum.neginf
  else JSNum.num (a / b)

/-- JavaScript multiplication by the positive literal 100: NaN and the
infinities propagate unchanged. -/
def jsMul100 : JSNum → JSNum
  | JSNum.num x => JSNum.num (x * 100)
  | JSNum.nan => JSNum.nan
  | JSNum.posinf => JSNum.posinf
  | JSNum.neginf => JSNum.neginf

/-- JavaScript Math.min(100, x): NaN when x is NaN, 100 when x is positive
infinity, negative infinity kept, else the smaller finite value. -/
noncomputable def jsMin100 : JSNum → JSNum
  | JSNum.num x => JSNum.num (min 100 x)
  | JSNum.nan => JSNum.nan
  | JSNum.posinf => JSNum.num 100
  | JSNum.neginf => JSNum.neginf

/-- JavaScript Math.max(0, x): NaN when x is NaN, positive infinity kept,
0 when x is negative infinity, else the larger finite value. -/
noncomputable def jsMax0 : JSNum → JSNum
  | JSNum.num x => JSNum.num (max 0 x)
  | JSNum.nan => JSNum.nan
  | JSNum.posinf => JSNum.posinf
  | JSNum.neginf => JSNum.num 0

/-- Truncation toward zero, as JavaScript remainder uses. -/
noncomputable def jsTrunc (x : ℝ) : ℤ :=
  if 0 ≤ x then ⌊x⌋ else ⌈x⌉

/-- The JavaScript remainder x % y for finite x and nonzero y: the sign
follows the dividend (truncated division). -/
noncomputable def jsRem (x y : ℝ) : ℝ :=
  x - y * (jsTrunc (x / y) : ℝ)

/-- Degrees to radians, the toRad helper of src/tacticalUtils.ts. -/
noncomputable def toRad (degrees : ℝ) : ℝ :=
  degrees * (Real.pi / 180)

/-- JavaScript Math.atan2 on the real model (no negative zero): the
standard piecewise two-argument arctangent, with atan2 0 0 = 0 as
JavaScript returns for the positive zeros. -/
noncomputable def atan2 (y x : ℝ) : ℝ :=
  if 0 < x then Real.arctan (y / x)
  else if x < 0 then
    if 0 ≤ y then Real.arctan (y / x) + Real.pi else Real.arctan (y / x) - Real.pi
  else
    if 0 < y then Real.pi / 2 else if y < 0 then -(Real.pi / 2) else 0

/-- Haversine great-circle distance in metres, the calculateDistance
function of src/tacticalUtils.ts (Earth radius 6371000 m). -/
noncomputable def calculateDistance (lat1 lon1 lat2 lon2 : ℝ) : ℝ :=
  let R : ℝ := 6371000
  let dLat := toRad (lat2 - lat1)
  let dLon := toRad (lon2 - lon1)
  let a := Real.sin (dLat / 2) * Real.sin (dLat / 2) +
    Real.cos (toRad lat1) * Real.cos (toRad lat2) *
      Real.sin (dLon / 2) * Real.sin (dLon / 2)
  let c := 2 * atan2 (Real.sqrt a) (Real.sqrt (1 - a))
  R * c

/-- Haversine great-circle distance in kilometres, the calculateDistance
constant of the session-utilities module (Earth radius 6371 km). -/
noncomputable def calculateDistanceKm (lat1 lon1 lat2 lon2 : ℝ) : ℝ :=
  let R : ℝ := 6371
  let dLat := toRad (lat2 - lat1)
  let dLon := toRad (lon2 - lon1)
  let a := Real.sin (dLat / 2) * Real.sin (dLat / 2) +
    Real.cos (toRad lat1) * Real.cos (toRad lat2) *
      Real.sin (dLon / 2) * Real.sin (dLon / 2)
  let c := 2 * atan2 (Real.sqrt a) (Real.sqrt (1 - a))
  R * c

/-- The VMGData record returned by calculateVMG. -/
structure VMGData where
  timestamp : ℚ
  vmg : ℝ
  vmgUpwind : ℝ
  vmgDownwind : ℝ
  targetAngle : ℚ

/-- The calculateVMG function of src/tacticalUtils.ts.  The source guards
vmgUpwind, vmgDownwind and targetAngle by the JavaScript truthiness of twa
(absent or zero twa fails the guard) conjoined with the magnitude test. -/
noncomputable def calculateVMG (trackPoint : TrackPoint) (targetHeading : ℝ) : VMGData :=
  let angleToTarget : ℝ :=
    |jsRem ((trackPoint.cog : ℝ) - targetHeading + 180) 360 - 180|
  let vmg := (trackPoint.sog : ℝ) * Real.cos (angleToTarget * Real.pi / 180)
  let vmgUpwind :=
    match trackPoint.twa with
    | some t =>
        if t ≠ 0 ∧ |t| < 90 then
          (trackPoint.sog : ℝ) * Real.cos ((t : ℝ) * Real.pi / 180)
        else 0
    | none => 0
  let vmgDownwind :=
    match trackPoint.twa with
    | some t =>
        if t ≠ 0 ∧ 90 < |t| then
          (trackPoint.sog : ℝ) * Real.cos ((180 - |(t : ℝ)|) * Real.pi / 180)
        else 0
    | none => 0
  let targetAngle : ℚ :=
    match trackPoint.twa with
    | some t => if t ≠ 0 ∧ |t| < 90 then 42 else 145
    | none => 145
  { timestamp := trackPoint.ts, vmg := vmg, vmgUpwind := vmgUpwind,
    vmgDownwind := vmgDownwind, targetAngle := targetAngle }

/-- Which tack a layline belongs to. -/
inductive Tack where
  | port : Tack
  | starboard : Tack

/-- A projected layline: a polyline of latitude-longitude pairs plus its
tack, the Layline interface of src/tacticalUtils.ts. -/
structure Layline where
  points : List (ℝ × ℝ)
  tack : Tack

/-- The pair of laylines calculateLaylines returns. -/
structure LaylinePair where
  port : Layline
  starboard : Layline

/-- The port layline heading (windDirection + tackingAngle) % 360 computed
inside calculateLaylines. -/
noncomputable def portLaylineHeading (windDirection tackingAngle : ℝ) : ℝ :=
  jsRem (windDirection + tackingAngle) 360

/-- The starboard layline heading (windDirection - tackingAngle + 360) % 360
computed inside calculateLaylines. -/
noncomputable def starboardLaylineHeading (windDirection tackingAngle : ℝ) : ℝ :=
  jsRem (windDirection - tackingAngle + 360) 360

/-- The projectLine helper of src/tacticalUtils.ts: points + 1 fixes evenly
spaced along the great circle from the origin in the given heading. -/
noncomputable def projectLine (lat lon heading distance : ℝ)
    (points : ℕ := 50) : List (ℝ × ℝ) :=
  let R : ℝ := 6371000
  (List.range (points + 1)).map fun i =>
    let d := distance * (i : ℝ) / (points : ℝ)
    let brng := heading * Real.pi / 180
    let lat1 := lat * Real.pi / 180
    let lon1 := lon * Real.pi / 180
    let lat2 := Real.arcsin (Real.sin lat1 * Real.cos (d / R) +
      Real.cos lat1 * Real.sin (d / R) * Real.cos brng)
    let lon2 := lon1 + atan2 (Real.sin brng * Real.sin (d / R) * Real.cos lat1)
      (Real.cos (d / R) - Real.sin lat1 * Real.sin lat2)
    (lat2 * 180 / Real.pi, lon2 * 180 / Real.pi)

/-- The calculateLaylines function of src/tacticalUtils.ts.  The mark
coordinates are accepted and ignored, as in the source; the defaults are
the source defaults (tacking angle 42, projection distance 500 m). -/
noncomputable def calculateLaylines (currentLat currentLon markLat markLon
    windDirection : ℝ) (tackingAngle : ℝ := 42) (distance : ℝ := 500) :
    LaylinePair :=
  { port :=
      { points := projectLine currentLat currentLon
          (portLaylineHeading windDirection tackingAngle) distance
        tack := Tack.port }
    starboard :=
      { points := projectLine currentLat currentLon
          (starboardLaylineHeading windDirection tackingAngle) distance
        tack := Tack.starboard } }

/-- The TackAnalysis record of src/tacticalUtils.ts.  lostDistance mixes the
rational expected distance with the real haversine distance; efficiency is
the JavaScript value of Math.max(0, Math.min(100, dist / expected * 100)). -/
structure TackAnalysis where
  timestamp : ℚ
  lat : ℚ
  lon : ℚ
  lostDistance : ℝ
  timeInIrons : ℚ
  efficiency : JSNum

/-- The body of one iteration of the detectTacks loop for the adjacent pair
(prev, current): the event pushed for that pair, if any.  The source first
skips the pair when either twa is falsy (absent or zero), then tests for a
sign change. -/
noncomputable def tackEventAt (prev current : TrackPoint) : Option TackAnalysis :=
  match prev.twa, current.twa with
  | some tp, some tc =>
      if tp = 0 ∨ tc = 0 then none
      else if (0 < tp ∧ tc < 0) ∨ (tp < 0 ∧ 0 < tc) then
        let timeDiff : ℚ := (current.ts - prev.ts) / 1000
        let dist : ℝ := calculateDistance (prev.lat : ℝ) (prev.lon : ℝ)
          (current.lat : ℝ) (current.lon : ℝ)
        let expectedDistance : ℚ := (prev.sog + current.sog) / 2 * (0.514444 : ℚ) * timeDiff
        some
          { timestamp := current.ts
            lat := current.lat
            lon := current.lon
            lostDistance := (expectedDistance : ℝ) - dist
            timeInIrons := timeDiff
            efficiency := jsMax0 (jsMin100 (jsMul100 (jsDiv dist (expectedDistance : ℝ)))) }
      else none
  | _, _ => none

/-- The detectTacks loop from index 1 upward: each step pairs the previous
sample with the current one.  The source also keeps a previousTWA variable,
but it is written and never read, so it does not affect the output. -/
noncomputable def detectTacksAux : TrackPoint → List TrackPoint → List TackAnalysis
  | _, [] => []
  | prev, curr :: rest => (tackEventAt prev curr).toList ++ detectTacksAux curr rest

/-- The detectTacks function of src/tacticalUtils.ts. -/
noncomputable def detectTacks : List TrackPoint → List TackAnalysis
  | [] => []
  | p :: rest => detectTacksAux p rest

/-- Wind shift classification. -/
inductive ShiftType where
  | lift : ShiftType
  | header : ShiftType
deriving DecidableEq

/-- One detected wind shift, as pushed by detectWindShifts. -/
structure WindShiftEvent where
  timestamp : ℚ
  shift : ℚ
  type : ShiftType
deriving DecidableEq

/-- The body of one iteration of the detectWindShifts loop comparing the
sample five places back with the current one: the event pushed, if any.
The source skips the pair when either twa is falsy (absent or zero). -/
def shiftEventAt (thresholdDegrees : ℚ) (previous current : TrackPoint) :
    Option WindShiftEvent :=
  match previous.twa, current.twa with
  | some tp, some tc =>
      if tp = 0 ∨ tc = 0 then none
      else
        let shift := tc - tp
        if thresholdDegrees < |shift| then
          some { timestamp := current.ts, shift := shift,
                 type := if 0 < shift then ShiftType.lift else ShiftType.header }
        else none
  | _, _ => none

/-- The detectWindShifts function of src/tacticalUtils.ts: indices i from 5
to the end, comparing trackPoints at i - 5 and i; source default threshold
10 degrees. -/
def detectWindShifts (trackPoints : List TrackPoint)
    (thresholdDegrees : ℚ := 10) : List WindShiftEvent :=
  (List.range trackPoints.length).filterMap fun i =>
    if 5 ≤ i then
      match trackPoints.get? (i - 5), trackPoints.get? i with
      | some previous, some current => shiftEventAt thresholdDegrees previous current
      | _, _ => none
    else none

/-- Which start-line end is favored. -/
inductive FavoredEnd where
  | pin : FavoredEnd
  | boat : FavoredEnd
  | neutral : FavoredEnd
deriving DecidableEq

/-- The record calculateStartLineBias returns. -/
structure StartLineBias where
  lineHeading : ℝ
  bias : ℝ
  favoredEnd : FavoredEnd

/-- The line-heading computation inside calculateStartLineBias: the forward
azimuth from the pin end to the boat end, folded into the range produced by
(atan2 * 180 / pi + 360) % 360. -/
noncomputable def lineHeadingOf (pinLat pinLon boatLat boatLon : ℝ) : ℝ :=
  let lat1 := toRad pinLat
  let lat2 := toRad boatLat
  let dLon := toRad (boatLon - pinLon)
  let y := Real.sin dLon * Real.cos lat2
  let x := Real.cos lat1 * Real.sin lat2 -
    Real.sin lat1 * Real.cos lat2 * Real.cos dLon
  jsRem (atan2 y x * 180 / Real.pi + 360) 360

/-- The calculateStartLineBias function of src/tacticalUtils.ts. -/
noncomputable def calculateStartLineBias (pinLat pinLon boatLat boatLon
    windDirection : ℝ) : StartLineBias :=
  let lineHeading := lineHeadingOf pinLat pinLon boatLat boatLon
  let bias := jsRem (windDirection - lineHeading + 180) 360 - 180
  let favoredEnd :=
    if |bias| < 5 then FavoredEnd.neutral
    else if 0 < bias then FavoredEnd.pin
    else FavoredEnd.boat
  { lineHeading := lineHeading, bias := bias, favoredEnd := favoredEnd }

/-- The getOptimalTackingAngle function of src/tacticalUtils.ts. -/
def getOptimalTackingAngle (windSpeed : ℚ) : ℚ :=
  if windSpeed < 8 then 45
  else if windSpeed < 12 then 42
  else if windSpeed < 18 then 38
  else 35

/- Facts about the JavaScript remainder. -/

theorem jsRem_sub_int_mul (x y : ℝ) : ∃ k : ℤ, jsRem x y = x - y * (k : ℝ) :=
  ⟨jsTrunc (x / y), rfl⟩

theorem jsTrunc_of_nonneg (x : ℝ) (h : 0 ≤ x) : jsTrunc x = ⌊x⌋ := by
  unfold jsTrunc
  exact if_pos h

theorem jsRem_eq_fract_mul (x y : ℝ) (hx : 0 ≤ x) (hy : 0 < y) :
    jsRem x y = y * Int.fract (x / y) := by
  unfold jsRem
  rw [jsTrunc_of_nonneg _ (div_nonneg hx hy.le), Int.fract]
  field_simp

theorem jsRem_nonneg (x y : ℝ) (hx : 0 ≤ x) (hy : 0 < y) : 0 ≤ jsRem x y := by
  rw [jsRem_eq_fract_mul x y hx hy]
  exact mul_nonneg hy.le (Int.fract_nonneg _)

theorem jsRem_lt (x y : ℝ) (hx : 0 ≤ x) (hy : 0 < y) : jsRem x y < y := by
  rw [jsRem_eq_fract_mul x y hx hy]
  calc y * Int.fract (x / y) < y * 1 :=
        mul_lt_mul_of_pos_left (Int.fract_lt_one _) hy
    _ = y := mul_one y

/-- C7: the kilometre haversine (session utilities, Earth radius 6371 km)
equals the metre haversine (tacticalUtils, Earth radius 6371000 m)
divided by exactly 1000, for every pair of coordinates: the two exposed
distance functions are unit-consistent. -/
theorem calculateDistanceKm_eq_div_1000 (lat1 lon1 lat2 lon2 : ℝ) :
    calculateDistanceKm lat1 lon1 lat2 lon2 =
      calculateDistance lat1 lon1 lat2 lon2 / 1000 := by
  simp only [calculateDistanceKm, calculateDistance]
  ring

/-- C8: for wind direction W in the interval from 0 inclusive to 360
exclusive and tacking angle in 0 to 90, the port and starboard layline
headings used by calculateLaylines differ by twice the tacking angle
modulo 360 (mirror symmetry about the wind axis). -/
theorem layline_mirror_symmetry (currentLat currentLon markLat markLon
    windDirection tackingAngle distance : ℝ)
    (h0 : 0 ≤ windDirection) (h1 : windDirection < 360)
    (h2 : 0 ≤ tackingAngle) (h3 : tackingAngle ≤ 90) :
    (calculateLaylines currentLat currentLon markLat markLon windDirection
        tackingAngle distance).port.points =
      projectLine currentLat currentLon
        (portLaylineHeading windDirection tackingAngle) distance ∧
    (calculateLaylines currentLat currentLon markLat markLon windDirection
        tackingAngle distance).starboard.points =
      projectLine currentLat currentLon
        (starboardLaylineHeading windDirection tackingAngle) distance ∧
    ∃ k : ℤ, portLaylineHeading windDirection tackingAngle -
        starboardLaylineHeading windDirection tackingAngle =
      2 * tackingAngle + 360 * (k : ℝ) := by
  refine ⟨rfl, rfl, ?_⟩
  obtain ⟨k1, hk1⟩ := jsRem_sub_int_mul (windDirection + tackingAngle) 360
  obtain ⟨k2, hk2⟩ := jsRem_sub_int_mul (windDirection - tackingAngle + 360) 360
  refine ⟨k2 - k1 - 1, ?_⟩
  unfold portLaylineHeading starboardLaylineHeading
  rw [hk1, hk2]
  push_cast
  ring

/-- Witness for C8 at wind direction 0, tacking angle 42. -/
theorem layline_mirror_symmetry_witness :
    (calculateLaylines 0 0 0 0 0 42 500).port.points =
      projectLine 0 0 (portLaylineHeading 0 42) 500 ∧
    (calculateLaylines 0 0 0 0 0 42 500).starboard.points =
      projectLine 0 0 (starboardLaylineHeading 0 42) 500 ∧
    ∃ k : ℤ, portLaylineHeading 0 42 - starboardLaylineHeading 0 42 =
      2 * 42 + 360 * (k : ℝ) :=
  layline_mirror_symmetry 0 0 0 0 0 42 500 (by norm_num) (by norm_num)
    (by norm_num) (by norm_num)

/- Pointwise evaluation facts for the geodesic kernel. -/

theorem atan2_zero_of_nonneg (x : ℝ) (h : 0 ≤ x) : atan2 0 x = 0 := by
  unfold atan2
  rcases lt_or_eq_of_le h with hx | hx
  · rw [if_pos hx, zero_div, Real.arctan_zero]
  · rw [if_neg (by rw [← hx]; exact lt_irrefl 0),
      if_neg (by rw [← hx]; exact lt_irrefl 0),
      if_neg (lt_irrefl 0), if_neg (lt_irrefl 0)]

theorem calculateDistance_self (lat lon : ℝ) :
    calculateDistance lat lon lat lon = 0 := by
  simp [calculateDistance, toRad, atan2_zero_of_nonneg]

/-- A track point with the given timestamp (epoch milliseconds), position,
speed over ground and true wind angle; the remaining fields are zero or
absent, which none of the functions under test consult. -/
def samplePoint (ts lat lon sog : ℚ) (twa : Option ℚ) : TrackPoint :=
  { ts := ts, lat := lat, lon := lon, sog := sog, cog := 0, awa := 0,
    aws := 0, hdg := 0, tws := none, twa := twa }

/-- The end-to-end scenario of C5: twa sequence -20, -5, 5, 20 at one-second
spacing with sog 6 throughout. -/
def c5Track : List TrackPoint :=
  [samplePoint 0 0 0 6 (some (-20)), samplePoint 1000 0 0 6 (some (-5)),
   samplePoint 2000 0 0 6 (some 5), samplePoint 3000 0 0 6 (some 20)]

/-- C5: on the four-sample track with twa -20, -5, 5, 20 at one-second
spacing and sog 6, detectTacks returns exactly one maneuver event, stamped
with the timestamp of index 2 (the sign crossing between indices 1 and 2),
and its timeInIrons is 1 second. -/
theorem detectTacks_end_to_end :
    (detectTacks c5Track).map (fun e => (e.timestamp, e.timeInIrons)) =
      [(2000, 1)] ∧
    (c5Track.get? 2).map (fun p => p.ts) = some 2000 := by
  constructor
  · simp only [c5Track, samplePoint, detectTacks, detectTacksAux, tackEventAt]
    norm_num
  · rfl

/-- The failing input of C1: a sign crossing between two fixes sharing one
timestamp and one position, so the expected distance is 0. -/
def c1Track : List TrackPoint :=
  [samplePoint 0 0 0 6 (some (-5)), samplePoint 0 0 0 6 (some 5)]

/-- C1 (failing input): on a detected maneuver whose expected distance is 0
(equal timestamps) and whose fixes coincide, the efficiency the code
computes is NaN — 0 / 0 stays NaN through Math.min and Math.max — not the 0
the spec defines.  (When the fixes differ the quotient is instead positive
infinity, clamped to 100; in neither case is the result 0.) -/
theorem detectTacks_zero_expected_nan :
    (detectTacks c1Track).map (fun e => e.efficiency) = [JSNum.nan] ∧
    JSNum.nan ≠ JSNum.num 0 := by
  constructor
  · simp only [c1Track, samplePoint, detectTacks, detectTacksAux, tackEventAt]
    norm_num [jsDiv, jsMul100, jsMin100, jsMax0, calculateDistance_self]
  · intro h
    exact JSNum.noConfusion h

/-- The counterexample track of C4: a positive twa, then a sample lacking
twa, then a negative twa. -/
def c4Track : List TrackPoint :=
  [samplePoint 0 0 0 6 (some 10), samplePoint 1000 0 0 6 none,
   samplePoint 2000 0 0 6 (some (-10))]

/-- C4 (counterexample): with twa 10, then a sample lacking twa, then twa
-10, detectTacks reports no maneuver at all — the twa-less sample
suppresses detection of the sign change rather than being skipped over. -/
theorem detectTacks_gap_counterexample :
    (c4Track.map fun p => p.twa) = [some 10, none, some (-10)] ∧
    detectTacks c4Track = [] := by
  constructor
  · rfl
  · simp [c4Track, samplePoint, detectTacks, detectTacksAux, tackEventAt]

theorem detectTacksAux_eq_zip (prev : TrackPoint) (l : List TrackPoint) :
    detectTacksAux prev l =
      ((prev :: l).zip l).filterMap (fun pc => tackEventAt pc.1 pc.2) := by
  induction l generalizing prev with
  | nil => rfl
  | cons c rest ih =>
      rw [detectTacksAux, List.zip_cons_cons, List.filterMap_cons, ih c]
      cases tackEventAt prev c <;> simp

/-- C4 (amended): detectTacks compares strictly adjacent samples — it equals
the per-adjacent-pair event map, and a pair yields an event exactly when
both samples carry a present, nonzero twa and the sign flips between them.
A sample lacking twa therefore suppresses detection across it. -/
theorem detectTacks_adjacent_pairs (trackPoints : List TrackPoint) :
    detectTacks trackPoints =
      (trackPoints.zip trackPoints.tail).filterMap
        (fun pc => tackEventAt pc.1 pc.2) ∧
    ∀ p c, (tackEventAt p c).isSome = true ↔
      ∃ tp tc, p.twa = some tp ∧ c.twa = some tc ∧
        ((0 < tp ∧ tc < 0) ∨ (tp < 0 ∧ 0 < tc)) := by
  constructor
  · cases trackPoints with
    | nil => rfl
    | cons p rest => exact detectTacksAux_eq_zip p rest
  · intro p c
    cases hp : p.twa with
    | none => simp [tackEventAt, hp]
    | some tp =>
        cases hc : c.twa with
        | none => simp [tackEventAt, hp, hc]
        | some tc =>
            simp only [tackEventAt, hp, hc, Option.some.injEq]
            split_ifs with h0 hs
            · simp only [Option.isSome_none, Bool.false_eq_true, false_iff]
              rintro ⟨tp', tc', rfl, rfl, (⟨h1, h2⟩ | ⟨h1, h2⟩)⟩ <;>
                rcases h0 with h | h <;> subst h <;> linarith
            · simp only [Option.isSome_some, true_iff]
              exact ⟨tp, tc, rfl, rfl, hs⟩
            · simp only [Option.isSome_none, Bool.false_eq_true, false_iff]
              rintro ⟨tp', tc', rfl, rfl, h⟩
              exact hs h

/-- The counterexample track of C6: twa 20 followed by four samples of twa 1
and one of twa 0; the lag-5 comparison at index 5 sees a 20-degree delta
yet the zero twa is falsy and the pair is skipped. -/
def c6Track : List TrackPoint :=
  [samplePoint 0 0 0 6 (some 20), samplePoint 1000 0 0 6 (some 1),
   samplePoint 2000 0 0 6 (some 1), samplePoint 3000 0 0 6 (some 1),
   samplePoint 4000 0 0 6 (some 1), samplePoint 5000 0 0 6 (some 0)]

/-- C6 (counterexample): at index 5 both twa values are present (20 and 0)
and their delta 20 exceeds the threshold 10, yet detectWindShifts emits
nothing, because a zero twa fails the JavaScript truthiness guard. -/
theorem detectWindShifts_zero_counterexample :
    (c6Track.map fun p => p.twa) =
      [some 20, some 1, some 1, some 1, some 1, some 0] ∧
    (10 : ℚ) < |(0 : ℚ) - 20| ∧
    detectWindShifts c6Track 10 = [] := by
  refine ⟨rfl, by norm_num, by decide⟩

theorem shiftEventAt_none_left (thresholdDegrees : ℚ) (p c : TrackPoint)
    (hp : p.twa = none) : shiftEventAt thresholdDegrees p c = none := by
  cases hc : c.twa <;> unfold shiftEventAt <;> rw [hp, hc]

theorem shiftEventAt_none_right (thresholdDegrees : ℚ) (p c : TrackPoint)
    (hc : c.twa = none) : shiftEventAt thresholdDegrees p c = none := by
  cases hp : p.twa <;> unfold shiftEventAt <;> rw [hp, hc]

theorem shiftEventAt_some_some (thresholdDegrees : ℚ) (p c : TrackPoint)
    (tp tc : ℚ) (hp : p.twa = some tp) (hc : c.twa = some tc) :
    shiftEventAt thresholdDegrees p c =
      if tp = 0 ∨ tc = 0 then none
      else if thresholdDegrees < |tc - tp| then
        some { timestamp := c.ts, shift := tc - tp,
               type := if 0 < tc - tp then ShiftType.lift
                       else ShiftType.header }
      else none := by
  unfold shiftEventAt
  rw [hp, hc]

theorem shiftEventAt_eq_some (thresholdDegrees : ℚ) (p c : TrackPoint)
    (ev : WindShiftEvent) :
    shiftEventAt thresholdDegrees p c = some ev ↔
      ∃ tp tc, p.twa = some tp ∧ c.twa = some tc ∧ tp ≠ 0 ∧ tc ≠ 0 ∧
        thresholdDegrees < |tc - tp| ∧
        ev = { timestamp := c.ts, shift := tc - tp,
               type := if 0 < tc - tp then ShiftType.lift
                       else ShiftType.header } := by
  cases hp : p.twa with
  | none => rw [shiftEventAt_none_left thresholdDegrees p c hp]; simp [hp]
  | some tp =>
      cases hc : c.twa with
      | none => rw [shiftEventAt_none_right thresholdDegrees p c hc]; simp [hc]
      | some tc =>
          rw [shiftEventAt_some_some thresholdDegrees p c tp tc hp hc]
          simp only [hp, hc, Option.some.injEq]
          set ev0 : WindShiftEvent := WindShiftEvent.mk c.ts (tc - tp)
            (if 0 < tc - tp then ShiftType.lift else ShiftType.header) with hev0
          split_ifs with h0 ht
          · constructor
            · intro h
              exact absurd h (by simp)
            · rintro ⟨tp2, tc2, rfl, rfl, h3, h4, -, -⟩
              rcases h0 with h | h
              exacts [h3 h, h4 h]
          · rw [not_or] at h0
            constructor
            · intro h
              injection h with h
              exact ⟨tp, tc, rfl, rfl, h0.1, h0.2, ht, h.symm.trans hev0⟩
            · rintro ⟨tp2, tc2, rfl, rfl, -, -, -, he⟩
              rw [he, hev0]
          · constructor
            · intro h
              exact absurd h (by simp)
            · rintro ⟨tp2, tc2, rfl, rfl, -, -, hth, -⟩
              exact absurd hth ht

/-- C6 (amended): detectWindShifts emits an event for index i exactly when
i is at least 5, samples i and i-5 both carry a present, nonzero twa, and
the delta strictly exceeds the threshold; the event carries the delta as
shift and is a lift when the delta is positive, else a header.  A twa
equal to the threshold delta does not register; a present-but-zero twa is
skipped like an absent one. -/
theorem detectWindShifts_characterization (trackPoints : List TrackPoint)
    (thresholdDegrees : ℚ) (ev : WindShiftEvent) :
    ev ∈ detectWindShifts trackPoints thresholdDegrees ↔
      ∃ i, 5 ≤ i ∧ i < trackPoints.length ∧
        ∃ p c, trackPoints.get? (i - 5) = some p ∧
          trackPoints.get? i = some c ∧
          ∃ tp tc, p.twa = some tp ∧ c.twa = some tc ∧ tp ≠ 0 ∧ tc ≠ 0 ∧
            thresholdDegrees < |tc - tp| ∧
            ev = { timestamp := c.ts, shift := tc - tp,
                   type := if 0 < tc - tp then ShiftType.lift
                           else ShiftType.header } := by
  unfold detectWindShifts
  rw [List.mem_filterMap]
  constructor
  · rintro ⟨i, hi, hev⟩
    rw [List.mem_range] at hi
    by_cases h5 : 5 ≤ i
    · rw [if_pos h5] at hev
      cases hp : trackPoints.get? (i - 5) with
      | none =>
          rw [hp] at hev
          cases hc : trackPoints.get? i <;> rw [hc] at hev <;>
            exact Option.noConfusion hev
      | some p =>
          cases hc : trackPoints.get? i with
          | none =>
              rw [hp, hc] at hev
              exact Option.noConfusion hev
          | some c =>
              rw [hp, hc] at hev
              obtain ⟨tp, tc, h1, h2, h3, h4, h6, h7⟩ :=
                (shiftEventAt_eq_some thresholdDegrees p c ev).mp hev
              exact ⟨i, h5, hi, p, c, hp, hc, tp, tc, h1, h2, h3, h4, h6, h7⟩
    · rw [if_neg h5] at hev
      exact Option.noConfusion hev
  · rintro ⟨i, h5, hi, p, c, hp, hc, tp, tc, h1, h2, h3, h4, h6, h7⟩
    refine ⟨i, List.mem_range.mpr hi, ?_⟩
    rw [if_pos h5, hp, hc]
    exact (shiftEventAt_eq_some thresholdDegrees p c ev).mpr
      ⟨tp, tc, h1, h2, h3, h4, h6, h7⟩

/-- The counterexample point of C3: twa present and exactly 0, sog 6. -/
def c3Point : TrackPoint := samplePoint 0 0 0 6 (some 0)

/-- C3 (counterexample): for a sample with twa present and equal to 0 and
sog 6, the claim predicts vmgUpwind = sog * cos 0 = 6, but the code returns
0 — a present twa of 0 fails the JavaScript truthiness guard. -/
theorem calculateVMG_zero_twa_counterexample :
    c3Point.twa = some 0 ∧
    (calculateVMG c3Point 0).vmgUpwind = 0 ∧
    (c3Point.sog : ℝ) * Real.cos ((0 : ℝ) * Real.pi / 180) = 6 ∧
    (0 : ℝ) ≠ 6 := by
  refine ⟨rfl, ?_, ?_, by norm_num⟩
  · simp [calculateVMG, c3Point, samplePoint]
  · norm_num [c3Point, samplePoint]

/-- C3 (amended): vmgUpwind equals sog times the cosine of twa (in radians)
exactly when twa is present, nonzero and of magnitude under 90 degrees; it
is 0 when twa is absent, zero, or at least 90 in magnitude. -/
theorem calculateVMG_upwind_characterization (trackPoint : TrackPoint)
    (targetHeading : ℝ) :
    (∀ t, trackPoint.twa = some t → t ≠ 0 → |t| < 90 →
      (calculateVMG trackPoint targetHeading).vmgUpwind =
        (trackPoint.sog : ℝ) * Real.cos ((t : ℝ) * Real.pi / 180)) ∧
    (∀ t, trackPoint.twa = some t → t = 0 ∨ 90 ≤ |t| →
      (calculateVMG trackPoint targetHeading).vmgUpwind = 0) ∧
    (trackPoint.twa = none →
      (calculateVMG trackPoint targetHeading).vmgUpwind = 0) := by
  refine ⟨?_, ?_, ?_⟩
  · intro t ht h0 h90
    simp [calculateVMG, ht, h0, h90]
  · intro t ht hz
    have hcond : ¬(t ≠ 0 ∧ |t| < 90) := by
      rcases hz with h | h
      · intro hco
        exact hco.1 h
      · intro hco
        linarith [hco.2]
    simp [calculateVMG, ht, hcond]
  · intro ht
    simp [calculateVMG, ht]

/-- Witness for C3 (amended) at twa 45, sog 6. -/
theorem calculateVMG_upwind_characterization_witness :
    (calculateVMG (samplePoint 0 0 0 6 (some 45)) 0).vmgUpwind =
      (((samplePoint 0 0 0 6 (some 45)).sog : ℚ) : ℝ) *
        Real.cos (((45 : ℚ) : ℝ) * Real.pi / 180) :=
  (calculateVMG_upwind_characterization (samplePoint 0 0 0 6 (some 45)) 0).1
    45 rfl (by norm_num) (by norm_num)

/-- C9: a true wind angle of exactly 0 behaves like an absent one
throughout: calculateVMG yields vmgUpwind 0, vmgDownwind 0 and targetAngle
145, and the per-pair bodies of detectTacks and detectWindShifts skip any
pair containing the sample, on either side. -/
theorem twa_zero_treated_as_absent (p : TrackPoint) (targetHeading : ℝ)
    (hp : p.twa = some 0) (q : TrackPoint) (thresholdDegrees : ℚ) :
    (calculateVMG p targetHeading).vmgUpwind = 0 ∧
    (calculateVMG p targetHeading).vmgDownwind = 0 ∧
    (calculateVMG p targetHeading).targetAngle = 145 ∧
    tackEventAt p q = none ∧ tackEventAt q p = none ∧
    shiftEventAt thresholdDegrees p q = none ∧
    shiftEventAt thresholdDegrees q p = none := by
  refine ⟨?_, ?_, ?_, ?_, ?_, ?_, ?_⟩
  · simp [calculateVMG, hp]
  · simp [calculateVMG, hp]
  · simp [calculateVMG, hp]
  · cases hq : q.twa <;> simp [tackEventAt, hp, hq]
  · cases hq : q.twa <;> simp [tackEventAt, hp, hq]
  · cases hq : q.twa <;> simp [shiftEventAt, hp, hq]
  · cases hq : q.twa <;> simp [shiftEventAt, hp, hq]

/-- Witness for C9 at a concrete zero-twa sample against a twa-10 sample. -/
theorem twa_zero_treated_as_absent_witness :
    (calculateVMG (samplePoint 0 0 0 6 (some 0)) 0).vmgUpwind = 0 ∧
    (calculateVMG (samplePoint 0 0 0 6 (some 0)) 0).vmgDownwind = 0 ∧
    (calculateVMG (samplePoint 0 0 0 6 (some 0)) 0).targetAngle = 145 ∧
    tackEventAt (samplePoint 0 0 0 6 (some 0))
      (samplePoint 1000 0 0 6 (some 10)) = none ∧
    tackEventAt (samplePoint 1000 0 0 6 (some 10))
      (samplePoint 0 0 0 6 (some 0)) = none ∧
    shiftEventAt 10 (samplePoint 0 0 0 6 (some 0))
      (samplePoint 1000 0 0 6 (some 10)) = none ∧
    shiftEventAt 10 (samplePoint 1000 0 0 6 (some 10))
      (samplePoint 0 0 0 6 (some 0)) = none :=
  twa_zero_treated_as_absent (samplePoint 0 0 0 6 (some 0)) 0 rfl
    (samplePoint 1000 0 0 6 (some 10)) 10

/- Concrete evaluations of the JavaScript remainder and of atan2 needed for
the start-line bias claim. -/

theorem jsRem_270_360 : jsRem 270 360 = 270 := by
  unfold jsRem jsTrunc
  rw [if_pos (by norm_num : (0 : ℝ) ≤ 270 / 360)]
  rw [show ⌊(270 : ℝ) / 360⌋ = 0 from
    Int.floor_eq_zero_iff.mpr (by constructor <;> norm_num)]
  norm_num

theorem jsRem_neg90_360 : jsRem (-90) 360 = -90 := by
  unfold jsRem jsTrunc
  rw [if_neg (by norm_num : ¬(0 : ℝ) ≤ -90 / 360)]
  rw [show ⌈(-90 : ℝ) / 360⌉ = 0 from
    Int.ceil_eq_zero_iff.mpr (by constructor <;> norm_num)]
  norm_num

theorem sin_pi_div_180_pos : 0 < Real.sin (Real.pi / 180) :=
  Real.sin_pos_of_pos_of_lt_pi (by positivity) (by linarith [Real.pi_pos])

theorem atan2_of_neg_zero (y : ℝ) (hy : y < 0) : atan2 y 0 = -(Real.pi / 2) := by
  unfold atan2
  rw [if_neg (lt_irrefl 0), if_neg (lt_irrefl 0),
    if_neg (not_lt.mpr hy.le), if_pos hy]

/-- The line heading from the pin at the origin to a boat end one degree of
longitude to the west is due west, 270 degrees. -/
theorem lineHeadingOf_eval : lineHeadingOf 0 0 0 (-1) = 270 := by
  have hy : -Real.sin (Real.pi / 180) < 0 :=
    neg_neg_iff_pos.mpr sin_pi_div_180_pos
  simp only [lineHeadingOf, toRad]
  norm_num [Real.sin_neg]
  rw [atan2_of_neg_zero _ hy]
  have h2 : -(Real.pi / 2) * 180 / Real.pi = -90 := by
    field_simp
    ring
  rw [h2]
  norm_num [jsRem_270_360]

/-- C2 (counterexample): for the pin at the origin, the boat end one degree
west and wind direction 0, the returned bias is -270 — outside the interval
from -180 to 180 the claim asserts (the normalised value would be 90) — and
the favored end is reported as boat where the normalised bias would say
pin. -/
theorem startLineBias_counterexample :
    (calculateStartLineBias 0 0 0 (-1) 0).bias = -270 ∧
    (calculateStartLineBias 0 0 0 (-1) 0).bias < -180 ∧
    (calculateStartLineBias 0 0 0 (-1) 0).favoredEnd = FavoredEnd.boat := by
  have hb : (calculateStartLineBias 0 0 0 (-1) 0).bias = -270 := by
    show jsRem (0 - lineHeadingOf 0 0 0 (-1) + 180) 360 - 180 = -270
    rw [lineHeadingOf_eval]
    norm_num [jsRem_neg90_360]
  refine ⟨hb, by rw [hb]; norm_num, ?_⟩
  show (if |(calculateStartLineBias 0 0 0 (-1) 0).bias| < 5 then FavoredEnd.neutral
        else if 0 < (calculateStartLineBias 0 0 0 (-1) 0).bias then FavoredEnd.pin
        else FavoredEnd.boat) = FavoredEnd.boat
  rw [hb]
  norm_num

theorem favoredEnd_if_iff (b : ℝ) :
    ((if |b| < 5 then FavoredEnd.neutral
      else if 0 < b then FavoredEnd.pin else FavoredEnd.boat) =
        FavoredEnd.neutral ↔ |b| < 5) ∧
    ((if |b| < 5 then FavoredEnd.neutral
      else if 0 < b then FavoredEnd.pin else FavoredEnd.boat) =
        FavoredEnd.pin ↔ 5 ≤ b) ∧
    ((if |b| < 5 then FavoredEnd.neutral
      else if 0 < b then FavoredEnd.pin else FavoredEnd.boat) =
        FavoredEnd.boat ↔ b ≤ -5) := by
  split_ifs with h1 h2
  · obtain ⟨hlo, hhi⟩ := abs_lt.mp h1
    exact ⟨iff_of_true rfl h1,
      iff_of_false (by decide) (by linarith),
      iff_of_false (by decide) (by linarith)⟩
  · have h5 : 5 ≤ b := by
      rw [abs_of_pos h2] at h1
      linarith [not_lt.mp h1]
    exact ⟨iff_of_false (by decide) h1,
      iff_of_true rfl h5,
      iff_of_false (by decide) (by linarith)⟩
  · have h5 : b ≤ -5 := by
      rw [abs_of_nonpos (not_lt.mp h2)] at h1
      linarith [not_lt.mp h1]
    exact ⟨iff_of_false (by decide) h1,
      iff_of_false (by decide) (by linarith),
      iff_of_true rfl h5⟩

/-- C2 (amended): the returned bias is the JavaScript remainder expression
(windDirection - lineHeading + 180) % 360 - 180, which is congruent to
windDirection - lineHeading modulo 360 and lies in the interval from -180
inclusive to 180 exclusive whenever windDirection - lineHeading + 180 is
nonnegative; when that quantity is negative the bias falls below -180 (360
less than the normalised value), as the counterexample shows.  The favored
end is neutral exactly when the absolute bias is under 5 (so a bias of
exactly 5 is pin, not neutral), pin exactly when the bias is at least 5,
and boat exactly when it is at most -5. -/
theorem startLineBias_characterization (pinLat pinLon boatLat boatLon
    windDirection : ℝ)
    (h : 0 ≤ windDirection - lineHeadingOf pinLat pinLon boatLat boatLon + 180) :
    (∃ k : ℤ,
      (calculateStartLineBias pinLat pinLon boatLat boatLon windDirection).bias =
        windDirection -
          (calculateStartLineBias pinLat pinLon boatLat boatLon
            windDirection).lineHeading + 360 * (k : ℝ)) ∧
    -180 ≤ (calculateStartLineBias pinLat pinLon boatLat boatLon
      windDirection).bias ∧
    (calculateStartLineBias pinLat pinLon boatLat boatLon windDirection).bias
      < 180 ∧
    ((calculateStartLineBias pinLat pinLon boatLat boatLon
        windDirection).favoredEnd = FavoredEnd.neutral ↔
      |(calculateStartLineBias pinLat pinLon boatLat boatLon
        windDirection).bias| < 5) ∧
    ((calculateStartLineBias pinLat pinLon boatLat boatLon
        windDirection).favoredEnd = FavoredEnd.pin ↔
      5 ≤ (calculateStartLineBias pinLat pinLon boatLat boatLon
        windDirection).bias) ∧
    ((calculateStartLineBias pinLat pinLon boatLat boatLon
        windDirection).favoredEnd = FavoredEnd.boat ↔
      (calculateStartLineBias pinLat pinLon boatLat boatLon
        windDirection).bias ≤ -5) := by
  have hB : (calculateStartLineBias pinLat pinLon boatLat boatLon
      windDirection).bias =
    jsRem (windDirection - lineHeadingOf pinLat pinLon boatLat boatLon + 180)
      360 - 180 := rfl
  have hL : (calculateStartLineBias pinLat pinLon boatLat boatLon
      windDirection).lineHeading =
    lineHeadingOf pinLat pinLon boatLat boatLon := rfl
  have hF : (calculateStartLineBias pinLat pinLon boatLat boatLon
      windDirection).favoredEnd =
    (if |(calculateStartLineBias pinLat pinLon boatLat boatLon
          windDirection).bias| < 5 then FavoredEnd.neutral
     else if 0 < (calculateStartLineBias pinLat pinLon boatLat boatLon
          windDirection).bias then FavoredEnd.pin
     else FavoredEnd.boat) := rfl
  obtain ⟨hiff1, hiff2, hiff3⟩ :=
    favoredEnd_if_iff ((calculateStartLineBias pinLat pinLon boatLat boatLon
      windDirection).bias)
  refine ⟨?_, ?_, ?_, ?_, ?_, ?_⟩
  · obtain ⟨k0, hk0⟩ := jsRem_sub_int_mul
      (windDirection - lineHeadingOf pinLat pinLon boatLat boatLon + 180) 360
    refine ⟨-k0, ?_⟩
    rw [hB, hL, hk0]
    push_cast
    ring
  · rw [hB]
    have := jsRem_nonneg
      (windDirection - lineHeadingOf pinLat pinLon boatLat boatLon + 180) 360 h
      (by norm_num)
    linarith
  · rw [hB]
    have := jsRem_lt
      (windDirection - lineHeadingOf pinLat pinLon boatLat boatLon + 180) 360 h
      (by norm_num)
    linarith
  · rw [hF]
    exact hiff1
  · rw [hF]
    exact hiff2
  · rw [hF]
    exact hiff3

/-- Witness for C2 (amended) at the pin at the origin, the boat end one
degree west and wind direction 300 (so the remainder argument 210 is
nonnegative). -/
theorem startLineBias_characterization_witness :
    (∃ k : ℤ, (calculateStartLineBias 0 0 0 (-1) 300).bias =
        300 - (calculateStartLineBias 0 0 0 (-1) 300).lineHeading +
          360 * (k : ℝ)) ∧
    -180 ≤ (calculateStartLineBias 0 0 0 (-1) 300).bias ∧
    (calculateStartLineBias 0 0 0 (-1) 300).bias < 180 ∧
    ((calculateStartLineBias 0 0 0 (-1) 300).favoredEnd = FavoredEnd.neutral ↔
      |(calculateStartLineBias 0 0 0 (-1) 300).bias| < 5) ∧
    ((calculateStartLineBias 0 0 0 (-1) 300).favoredEnd = FavoredEnd.pin ↔
      5 ≤ (calculateStartLineBias 0 0 0 (-1) 300).bias) ∧
    ((calculateStartLineBias 0 0 0 (-1) 300).favoredEnd = FavoredEnd.boat ↔
      (calculateStartLineBias 0 0 0 (-1) 300).bias ≤ -5) :=
  startLineBias_characterization 0 0 0 (-1) 300
    (by rw [lineHeadingOf_eval]; norm_num)

/-- Projection at distance 0 is the identity: the first point of any
projected polyline is exactly the origin, provided the latitude is within
-90 to 90 so that arcsin undoes sin. -/
theorem projectLine_head (lat lon heading distance : ℝ) (n : ℕ)
    (h1 : -90 ≤ lat) (h2 : lat ≤ 90) :
    (projectLine lat lon heading distance n).head? = some (lat, lon) := by
  have hpi := Real.pi_pos
  have hlo : -(Real.pi / 2) ≤ lat * Real.pi / 180 := by nlinarith
  have hhi : lat * Real.pi / 180 ≤ Real.pi / 2 := by nlinarith
  have hsin : Real.sin (lat * Real.pi / 180) * Real.sin (lat * Real.pi / 180) ≤ 1 := by
    nlinarith [Real.neg_one_le_sin (lat * Real.pi / 180),
      Real.sin_le_one (lat * Real.pi / 180)]
  simp only [projectLine, List.range_succ_eq_map, List.map_cons, List.head?_cons,
    Option.some.injEq]
  norm_num
  rw [Real.arcsin_sin hlo hhi]
  rw [atan2_zero_of_nonneg _ (by nlinarith)]
  constructor
  · field_simp
  · field_simp

/-- C10: both polylines returned by calculateLaylines start at the current
position: the first point of the port layline and of the starboard layline
each equal the current latitude and longitude exactly, for any latitude in
-90 to 90. -/
theorem calculateLaylines_start_at_position (currentLat currentLon markLat
    markLon windDirection tackingAngle distance : ℝ)
    (h1 : -90 ≤ currentLat) (h2 : currentLat ≤ 90) :
    (calculateLaylines currentLat currentLon markLat markLon windDirection
      tackingAngle distance).port.points.head? = some (currentLat, currentLon) ∧
    (calculateLaylines currentLat currentLon markLat markLon windDirection
      tackingAngle distance).starboard.points.head? =
        some (currentLat, currentLon) :=
  ⟨projectLine_head currentLat currentLon
      (portLaylineHeading windDirection tackingAngle) distance 50 h1 h2,
   projectLine_head currentLat currentLon
      (starboardLaylineHeading windDirection tackingAngle) distance 50 h1 h2⟩

/-- Witness for C10 at the origin with wind 0 and the source defaults. -/
theorem calculateLaylines_start_witness :
    (calculateLaylines 0 0 1 1 0 42 500).port.points.head? = some (0, 0) ∧
    (calculateLaylines 0 0 1 1 0 42 500).starboard.points.head? = some (0, 0) :=
  calculateLaylines_start_at_position 0 0 1 1 0 42 500 (by norm_num) (by norm_num)

end RacePilot
